import Mathlib

/-!
# Verification of the finitude framing / monitoring code

Shallow embedding of the Python sources of the `finitude` repository:

* `frames.py` / `finitude/frames.py` (identical for the parts embedded
  here): CRC-16 (Modbus DF1, table driven), frame assembly and parsing,
  `Bus.read` (resynchronising framer) and `Bus.write` (listen-before-talk
  arbitration), `StreamFactory`, `FrameToSend`;
* `finitude.py`: `HvacMonitor.process_frame`, `store_frame`,
  `_process_send_queue`, and the run-loop exception boundary, together
  with the register decode table embedded in the top-level `frames.py`
  (the module `finitude.py` imports).

Python byte strings are modelled as `List Nat` (each element a byte value),
machine integers as `Nat`/`Int` with explicit `% 2^w` where the source
masks with `& 0xFF` / `& 0xFFFF`, and code that can raise is modelled in
`Except PyError`.
-/

namespace Finitude

/-- Python exception classes that the embedded code can raise.  `osError`
stands for the whole `OSError` hierarchy (including `socket.timeout` and
`serial` faults); `carrierError` is the repository's own `CarrierError`;
`exception` is a bare `Exception`. -/
inductive PyError where
  | indexError
  | structError
  | assertionError
  | unicodeDecodeError
  | valueError
  | nameError
  | keyError
  | typeError
  | osError
  | carrierError
  | exception
  deriving DecidableEq, Repr

/-! ## CRC-16 (class `CRC16` in frames.py)

`CRC16.TABLE` is the 256-entry Modbus DF1 table, copied verbatim from the
source. -/

/-- `CRC16.TABLE` from frames.py. -/
def crcTable : List Nat := [
  0x0000, 0xC0C1, 0xC181, 0x0140, 0xC301, 0x03C0, 0x0280, 0xC241,
  0xC601, 0x06C0, 0x0780, 0xC741, 0x0500, 0xC5C1, 0xC481, 0x0440,
  0xCC01, 0x0CC0, 0x0D80, 0xCD41, 0x0F00, 0xCFC1, 0xCE81, 0x0E40,
  0x0A00, 0xCAC1, 0xCB81, 0x0B40, 0xC901, 0x09C0, 0x0880, 0xC841,
  0xD801, 0x18C0, 0x1980, 0xD941, 0x1B00, 0xDBC1, 0xDA81, 0x1A40,
  0x1E00, 0xDEC1, 0xDF81, 0x1F40, 0xDD01, 0x1DC0, 0x1C80, 0xDC41,
  0x1400, 0xD4C1, 0xD581, 0x1540, 0xD701, 0x17C0, 0x1680, 0xD641,
  0xD201, 0x12C0, 0x1380, 0xD341, 0x1100, 0xD1C1, 0xD081, 0x1040,
  0xF001, 0x30C0, 0x3180, 0xF141, 0x3300, 0xF3C1, 0xF281, 0x3240,
  0x3600, 0xF6C1, 0xF781, 0x3740, 0xF501, 0x35C0, 0x3480, 0xF441,
  0x3C00, 0xFCC1, 0xFD81, 0x3D40, 0xFF01, 0x3FC0, 0x3E80, 0xFE41,
  0xFA01, 0x3AC0, 0x3B80, 0xFB41, 0x3900, 0xF9C1, 0xF881, 0x3840,
  0x2800, 0xE8C1, 0xE981, 0x2940, 0xEB01, 0x2BC0, 0x2A80, 0xEA41,
  0xEE01, 0x2EC0, 0x2F80, 0xEF41, 0x2D00, 0xEDC1, 0xEC81, 0x2C40,
  0xE401, 0x24C0, 0x2580, 0xE541, 0x2700, 0xE7C1, 0xE681, 0x2640,
  0x2200, 0xE2C1, 0xE381, 0x2340, 0xE101, 0x21C0, 0x2080, 0xE041,
  0xA001, 0x60C0, 0x6180, 0xA141, 0x6300, 0xA3C1, 0xA281, 0x6240,
  0x6600, 0xA6C1, 0xA781, 0x6740, 0xA501, 0x65C0, 0x6480, 0xA441,
  0x6C00, 0xACC1, 0xAD81, 0x6D40, 0xAF01, 0x6FC0, 0x6E80, 0xAE41,
  0xAA01, 0x6AC0, 0x6B80, 0xAB41, 0x6900, 0xA9C1, 0xA881, 0x6840,
  0x7800, 0xB8C1, 0xB981, 0x7940, 0xBB01, 0x7BC0, 0x7A80, 0xBA41,
  0xBE01, 0x7EC0, 0x7F80, 0xBF41, 0x7D00, 0xBDC1, 0xBC81, 0x7C40,
  0xB401, 0x74C0, 0x7580, 0xB541, 0x7700, 0xB7C1, 0xB681, 0x7640,
  0x7200, 0xB2C1, 0xB381, 0x7340, 0xB101, 0x71C0, 0x7080, 0xB041,
  0x5000, 0x90C1, 0x9181, 0x5140, 0x9301, 0x53C0, 0x5280, 0x9241,
  0x9601, 0x56C0, 0x5780, 0x9741, 0x5500, 0x95C1, 0x9481, 0x5440,
  0x9C01, 0x5CC0, 0x5D80, 0x9D41, 0x5F00, 0x9FC1, 0x9E81, 0x5E40,
  0x5A00, 0x9AC1, 0x9B81, 0x5B40, 0x9901, 0x59C0, 0x5880, 0x9841,
  0x8801, 0x48C0, 0x4980, 0x8941, 0x4B00, 0x8BC1, 0x8A81, 0x4A40,
  0x4E00, 0x8EC1, 0x8F81, 0x4F40, 0x8D01, 0x4DC0, 0x4C80, 0x8C41,
  0x4400, 0x84C1, 0x8581, 0x4540, 0x8701, 0x47C0, 0x4680, 0x8641,
  0x8201, 0x42C0, 0x4380, 0x8341, 0x4100, 0x81C1, 0x8081, 0x4040]

/-- `CRC16._calculate_one_cycle`: Python
`crc = (crc >> 8) ^ TABLE[(crc ^ b) & 0xFF]; return crc & 0xFFFF`.
For nonnegative ints `& 0xFF` is `% 256` and `& 0xFFFF` is `% 65536`. -/
def calculateOneCycle (b crc : Nat) : Nat :=
  ((crc >>> 8) ^^^ crcTable.getD ((crc ^^^ b) % 256) 0) % 65536

/-- `CRC16.calculate(bytesin, crc=0)`: fold of `_calculate_one_cycle`. -/
def calculate : List Nat → Nat → Nat
  | [], crc => crc
  | b :: rest, crc => calculate rest (calculateOneCycle b crc)

/-- `struct.pack('<H', c)`: the two-byte little-endian encoding of a 16-bit
value (`struct` guarantees `c < 65536` at every call site that reaches it). -/
def pack16le (c : Nat) : List Nat := [c % 256, c / 256 % 256]

/-- `struct.unpack('<H', bytes2)[0]` on a 2-byte string. -/
def unpack16le (l : List Nat) : Nat := l.getD 0 0 + 256 * l.getD 1 0

/-! ## Frame codec (`AssembledFrame`, `ParsedFrame`) -/

/-- `AssembledFrame.__init__`: `self.frame = b''.join([dest, source,
bytes([length, pid, ext, func]), data])` with `length = len(data)`. -/
def assembledFrame (dest source : List Nat) (func : Nat) (data : List Nat)
    (pid ext : Nat) : List Nat :=
  dest ++ source ++ [data.length, pid, ext, func] ++ data

/-- `AssembledFrame.framebytes`: `self.frame + struct.pack('<H', self.crc)`
where `self.crc = CRC16().calculate(self.frame)`. -/
def framebytesOf (dest source : List Nat) (func : Nat) (data : List Nat)
    (pid ext : Nat) : List Nat :=
  assembledFrame dest source func data pid ext ++
    pack16le (calculate (assembledFrame dest source func data pid ext) 0)

/-- `ParsedFrame.dest`: `framebytes[0:2]`. -/
def pDest (fb : List Nat) : List Nat := fb.take 2

/-- `ParsedFrame.source`: `framebytes[2:4]`. -/
def pSource (fb : List Nat) : List Nat := (fb.drop 2).take 2

/-- `ParsedFrame.length`: `framebytes[4]`. -/
def pLength (fb : List Nat) : Nat := fb.getD 4 0

/-- `ParsedFrame.pid`: `framebytes[5]`. -/
def pPid (fb : List Nat) : Nat := fb.getD 5 0

/-- `ParsedFrame.ext`: `framebytes[6]`. -/
def pExt (fb : List Nat) : Nat := fb.getD 6 0

/-- `ParsedFrame.func`: `framebytes[7]`. -/
def pFunc (fb : List Nat) : Nat := fb.getD 7 0

/-- `ParsedFrame.data`: `framebytes[8:8+self.length]`. -/
def pData (fb : List Nat) : List Nat := (fb.drop 8).take (pLength fb)

/-- `ParsedFrame.is_crc_valid`: recompute the CRC over header+payload and
compare with the stored little-endian CRC. -/
def isCrcValid (fb : List Nat) : Bool :=
  calculate (fb.take (8 + pLength fb)) 0 =
    unpack16le ((fb.drop (8 + pLength fb)).take 2)

/-! ## Function codes (`class Function(IntEnum)`) -/

/-- `Function.ACK02`. -/
def Function.ACK02 : Nat := 0x02
/-- `Function.ACK06`. -/
def Function.ACK06 : Nat := 0x06
/-- `Function.READ`. -/
def Function.READ : Nat := 0x0b
/-- `Function.WRITE`. -/
def Function.WRITE : Nat := 0x0c
/-- `Function.NACK`. -/
def Function.NACK : Nat := 0x15

/-! ## The framer (`Bus.read`)

`Bus.read` keeps a buffer `self.buf`; `_read_until(n)` blocks until the
buffer holds `n` bytes and raises `CarrierError` if the stream ends first.
We model the whole future of the stream as one finite list `input`
(buffered bytes followed by everything the stream will deliver before it
closes); a read past the end of `input` is the `CarrierError` case,
modelled as `none`.  The returned triple is (frame, residual bytes,
number of one-byte slides); the slide count equals the number of
`report_crc_error` callback invocations, since the callback is invoked
exactly once per slide when it is set.

The recursion is bounded by an explicit fuel argument; each slide consumes
one byte of input, so fuel `input.length` is always sufficient (when the
fuel hits zero the input is empty and the length guard fails anyway). -/
def busReadGo : Nat → List Nat → Nat → Option (List Nat × List Nat × Nat)
  | 0, _, _ => none
  | fuel + 1, input, slides =>
    -- frame_len = self.buf[4] + 10; _read_until(frame_len)
    let frameLen := input.getD 4 0 + 10
    if input.length < frameLen then none
    else if calculate (input.take frameLen) 0 = 0 then
      some (input.take frameLen, input.drop frameLen, slides)
    else busReadGo fuel (input.drop 1) (slides + 1)

/-- `Bus.read`: the initial `_read_until(10)` followed by the slide loop. -/
def busRead (input : List Nat) : Option (List Nat × List Nat × Nat) :=
  if input.length < 10 then none else busReadGo input.length input 0

/-! ## Write arbitration (`Bus.write`) -/

/-- `Bus.write(data)` for nonempty `data`: the pair is (return value, bytes
handed to the stream).  `canRead` is `self.stream.can_read` and `lastfunc`
is `self.lastfunc` (`none` until the first frame has been framed) at the
moment of the call. -/
def busWrite (canRead : Bool) (lastfunc : Option Nat) (data : List Nat) :
    Bool × List Nat :=
  if !canRead && (lastfunc == some Function.ACK06) then (true, data)
  else (false, [])

/-! ## CRC lemmas -/

theorem calculate_append (a b : List Nat) (c : Nat) :
    calculate (a ++ b) c = calculate b (calculate a c) := by
  induction a generalizing c with
  | nil => rfl
  | cons x xs ih => simp [calculate, ih]

theorem calculateOneCycle_lt (b c : Nat) : calculateOneCycle b c < 65536 :=
  Nat.mod_lt _ (by decide)

theorem calculate_lt (l : List Nat) (c : Nat) (h : c < 65536) :
    calculate l c < 65536 := by
  induction l generalizing c with
  | nil => exact h
  | cons x xs ih => exact ih _ (calculateOneCycle_lt x c)

theorem xor_mod_self (c : Nat) : (c ^^^ c % 256) % 256 = 0 := by
  have h256 : (256 : Nat) = 2 ^ 8 := rfl
  apply Nat.eq_of_testBit_eq
  intro i
  rw [h256, Nat.testBit_mod_two_pow, Nat.testBit_xor, Nat.testBit_mod_two_pow,
    Nat.zero_testBit]
  by_cases hi : i < 8 <;> cases hb : c.testBit i <;> simp [hi, hb]

theorem crcTable_getD_zero : crcTable.getD 0 0 = 0 := rfl

theorem calculateOneCycle_low (c : Nat) (h : c < 65536) :
    calculateOneCycle (c % 256) c = c / 256 := by
  unfold calculateOneCycle
  rw [xor_mod_self, crcTable_getD_zero, Nat.xor_zero, Nat.shiftRight_eq_div_pow]
  exact Nat.mod_eq_of_lt (lt_of_le_of_lt (Nat.div_le_self c (2 ^ 8)) h)

theorem calculateOneCycle_high (c : Nat) (h : c < 65536) :
    calculateOneCycle (c / 256 % 256) (c / 256) = 0 := by
  have hd : c / 256 < 256 := Nat.div_lt_of_lt_mul (by omega)
  unfold calculateOneCycle
  rw [Nat.mod_eq_of_lt hd, Nat.xor_self, Nat.zero_mod, crcTable_getD_zero,
    Nat.xor_zero, Nat.shiftRight_eq_div_pow]
  have : c / 256 / 2 ^ 8 = 0 := Nat.div_eq_of_lt hd
  rw [this]

/-- Appending the little-endian encoding of the running CRC drives the CRC
to zero. -/
theorem calculate_append_crc (b : List Nat) (c : Nat) (h : c = calculate b 0) :
    calculate (b ++ pack16le c) 0 = 0 := by
  subst h
  have hlt : calculate b 0 < 65536 := calculate_lt b 0 (by decide)
  rw [calculate_append]
  show calculate [calculate b 0 % 256, calculate b 0 / 256 % 256]
    (calculate b 0) = 0
  simp only [calculate]
  rw [calculateOneCycle_low _ hlt, calculateOneCycle_high _ hlt]

/-- Any frame returned by the slide loop has total CRC 0: the loop only
returns a frame after checking `crc == 0` over all of its bytes. -/
theorem busReadGo_crc (fuel : Nat) :
    ∀ input s fr rest n, busReadGo fuel input s = some (fr, rest, n) →
      calculate fr 0 = 0 := by
  induction fuel with
  | zero => intro input s fr rest n h; simp [busReadGo] at h
  | succ m ih =>
    intro input s fr rest n h
    simp only [busReadGo] at h
    split at h
    · exact Option.noConfusion h
    · split at h
      · rename_i hcrc
        rw [Option.some_inj] at h
        simp only [Prod.mk.injEq] at h
        obtain ⟨h1, -, -⟩ := h
        rw [← h1]; exact hcrc
      · exact ih _ _ _ _ _ h

/-! ## Concrete frames used by witnesses and counterexamples -/

/-- A valid 10-byte frame (zero-length payload): dest `01 01`, source
`02 01`, func `ACK06`, CRC `6d 2c` little-endian; total CRC is 0. -/
def frameA : List Nat := [1, 1, 2, 1, 0, 0, 0, 6, 109, 44]

/-- A valid 14-byte frame: dest `02 01`, source `04 01`, len 4, func
`READ`, payload `00 3b 02 00`, CRC `65 e1` little-endian. -/
def frameB : List Nat := [2, 1, 4, 1, 4, 0, 0, 11, 0, 59, 2, 0, 101, 225]

/-- C1: CRC-16 over any byte string followed by the little-endian encoding
of its own CRC is 0; hence every `AssembledFrame.framebytes` has total
CRC 0, and every frame returned by `Bus.read` has CRC 0 over all of its
bytes (header, payload and trailing CRC), since the framer only returns a
frame after checking exactly that. -/
theorem crc_of_emitted_and_framed_is_zero :
    (∀ b : List Nat, calculate (b ++ pack16le (calculate b 0)) 0 = 0) ∧
    (∀ dest source func data pid ext,
      calculate (framebytesOf dest source func data pid ext) 0 = 0) ∧
    (∀ input fr rest n, busRead input = some (fr, rest, n) →
      calculate fr 0 = 0) := by
  refine ⟨fun b => calculate_append_crc b _ rfl,
    fun dest source func data pid ext => calculate_append_crc _ _ rfl, ?_⟩
  intro input fr rest n h
  unfold busRead at h
  split at h
  · exact Option.noConfusion h
  · exact busReadGo_crc _ _ _ _ _ _ h

/-- Witness for `crc_of_emitted_and_framed_is_zero`: `Bus.read` on the
concrete valid frame `frameA` returns it, and its total CRC is 0. -/
theorem crc_of_emitted_and_framed_is_zero_witness :
    busRead frameA = some (frameA, [], 0) ∧ calculate frameA 0 = 0 :=
  ⟨by decide, crc_of_emitted_and_framed_is_zero.2.2 frameA frameA [] 0 (by decide)⟩

/-! ## Resynchronisation (C4) -/

theorem busReadGo_resync (F : List Nat)
    (hF : F.length = F.getD 4 0 + 10) (hcrc : calculate F 0 = 0) :
    ∀ (junk : List Nat) (fuel s : Nat), (junk ++ F).length ≤ fuel →
    (∀ j, j < junk.length →
      j + ((junk ++ F).getD (j + 4) 0 + 10) ≤ junk.length + F.length ∧
      calculate (((junk ++ F).drop j).take ((junk ++ F).getD (j + 4) 0 + 10)) 0 ≠ 0) →
    busReadGo fuel (junk ++ F) s = some (F, [], s + junk.length) := by
  intro junk
  induction junk with
  | nil =>
    intro fuel s hfuel hwin
    simp only [List.nil_append, List.length_nil] at *
    obtain ⟨m, rfl⟩ : ∃ m, fuel = m + 1 := ⟨fuel - 1, by omega⟩
    simp only [busReadGo]
    rw [← hF, if_neg (lt_irrefl _), List.take_length, if_pos hcrc,
      List.drop_length, Nat.add_zero]
  | cons b junk' ih =>
    intro fuel s hfuel hwin
    obtain ⟨m, rfl⟩ : ∃ m, fuel = m + 1 :=
      ⟨fuel - 1, by simp [List.length_cons] at hfuel; omega⟩
    have h0 := hwin 0 (Nat.succ_pos _)
    simp only [List.drop_zero, Nat.zero_add] at h0
    simp only [busReadGo]
    rw [if_neg (by
      have hlen : ((b :: junk') ++ F).length = (b :: junk').length + F.length :=
        List.length_append _ _
      omega)]
    rw [if_neg h0.2]
    have hdrop : ((b :: junk') ++ F).drop 1 = junk' ++ F := rfl
    rw [hdrop]
    have hwin' : ∀ j, j < junk'.length →
        j + ((junk' ++ F).getD (j + 4) 0 + 10) ≤ junk'.length + F.length ∧
        calculate (((junk' ++ F).drop j).take ((junk' ++ F).getD (j + 4) 0 + 10)) 0 ≠ 0 := by
      intro j hj
      have h := hwin (j + 1) (by simp [List.length_cons]; omega)
      rw [(by omega : j + 1 + 4 = j + 4 + 1)] at h
      simp only [List.cons_append, List.getD_cons_succ, List.drop_succ_cons,
        List.length_cons] at h
      exact ⟨by omega, h.2⟩
    rw [ih m (s + 1) (by simp [List.length_cons] at hfuel ⊢; omega) hwin']
    have : s + 1 + junk'.length = s + (b :: junk').length := by
      simp [List.length_cons]; omega
    rw [this]

/-- C4 counterexample: the claim quantifies over *arbitrary* junk bytes
before the embedded valid frame.  Take the junk to be itself the valid
10-byte frame `frameA` (so k = 10) followed by the embedded valid frame
`frameA`: `Bus.read` returns the *junk* frame after 0 slides, not the
embedded frame after 10 slides as the claim requires. -/
theorem busRead_resync_counterexample :
    busRead (frameA ++ frameA) = some (frameA, frameA, 0) ∧
    ¬ busRead (frameA ++ frameA) = some (frameA, [], frameA.length) := by
  constructor <;> decide

/-- C4 amended: if a byte sequence consists of k junk bytes followed by a
valid frame (correct length byte and total CRC 0), and *every* window
starting inside the junk both fits within the input (its length byte does
not make `_read_until` overrun the stream, which would raise
`CarrierError` instead of sliding) and has nonzero total CRC (so no
spurious frame is accepted early), then `Bus.read` returns exactly the
embedded frame after exactly k single-byte slides (hence k
`report_crc_error` callback invocations) with no residual data. -/
theorem busRead_resync (junk F : List Nat)
    (hF : F.length = F.getD 4 0 + 10) (hcrc : calculate F 0 = 0)
    (hwin : ∀ j, j < junk.length →
      j + ((junk ++ F).getD (j + 4) 0 + 10) ≤ junk.length + F.length ∧
      calculate (((junk ++ F).drop j).take ((junk ++ F).getD (j + 4) 0 + 10)) 0 ≠ 0) :
    busRead (junk ++ F) = some (F, [], junk.length) := by
  unfold busRead
  rw [if_neg (by
    have : (junk ++ F).length = junk.length + F.length := List.length_append _ _
    omega)]
  have := busReadGo_resync F hF hcrc junk (junk ++ F).length 0 le_rfl hwin
  simpa using this

/-- Witness for `busRead_resync`: feeding `ff ff ff` followed by the valid
14-byte frame `frameB` yields exactly `frameB` after exactly 3 slides. -/
theorem busRead_resync_witness :
    busRead ([255, 255, 255] ++ frameB) = some (frameB, [], 3) := by
  have := busRead_resync [255, 255, 255] frameB (by decide) (by decide)
    (by decide)
  simpa using this

/-! ## Frame codec round trip (C2) -/

/-- C2: parsing the `framebytes` of `AssembledFrame(dest, source, func,
data)` (with `pid = ext = 0`) recovers every header field and the payload
byte-for-byte, and `is_crc_valid()` holds.  Conversely, since `framebytes`
is a function of exactly these fields, re-parsing any emitted frame
reproduces the same field values. -/
theorem assemble_parse_roundtrip (dest source : List Nat) (func : Nat)
    (data : List Nat) (hdest : dest.length = 2) (hsource : source.length = 2)
    (hdata : data.length ≤ 255) (hfunc : func < 256) :
    pDest (framebytesOf dest source func data 0 0) = dest ∧
    pSource (framebytesOf dest source func data 0 0) = source ∧
    pLength (framebytesOf dest source func data 0 0) = data.length ∧
    pPid (framebytesOf dest source func data 0 0) = 0 ∧
    pExt (framebytesOf dest source func data 0 0) = 0 ∧
    pFunc (framebytesOf dest source func data 0 0) = func ∧
    pData (framebytesOf dest source func data 0 0) = data ∧
    isCrcValid (framebytesOf dest source func data 0 0) = true := by
  obtain ⟨d0, d1, rfl⟩ := List.length_eq_two.mp hdest
  obtain ⟨s0, s1, rfl⟩ := List.length_eq_two.mp hsource
  have hfr : assembledFrame [d0, d1] [s0, s1] func data 0 0 =
      d0 :: d1 :: s0 :: s1 :: data.length :: 0 :: 0 :: func :: data := rfl
  have hfrlen : (assembledFrame [d0, d1] [s0, s1] func data 0 0).length =
      8 + data.length := by rw [hfr]; simp; omega
  set c := calculate (assembledFrame [d0, d1] [s0, s1] func data 0 0) 0 with hc
  have hclt : c < 65536 := calculate_lt _ _ (by decide)
  have hfb : framebytesOf [d0, d1] [s0, s1] func data 0 0 =
      assembledFrame [d0, d1] [s0, s1] func data 0 0 ++ pack16le c := rfl
  have hplen : pLength (framebytesOf [d0, d1] [s0, s1] func data 0 0) =
      data.length := rfl
  refine ⟨rfl, rfl, hplen, rfl, rfl, rfl, ?_, ?_⟩
  · show (((assembledFrame [d0, d1] [s0, s1] func data 0 0 ++
      pack16le c).drop 8).take data.length) = data
    rw [hfr]
    show (data ++ pack16le c).take data.length = data
    exact List.take_left' rfl
  · unfold isCrcValid
    rw [hplen, hfb, List.take_left' hfrlen, List.drop_left' hfrlen, ← hc]
    have hpack : (pack16le c).take 2 = pack16le c := rfl
    rw [hpack]
    have hun : unpack16le (pack16le c) = c := by
      show c % 256 + 256 * (c / 256 % 256) = c
      rw [Nat.mod_eq_of_lt (Nat.div_lt_of_lt_mul (by omega))]
      exact Nat.mod_add_div c 256
    simp [hun]

/-- Witness for `assemble_parse_roundtrip` at a concrete frame. -/
theorem assemble_parse_roundtrip_witness :
    pData (framebytesOf [2, 1] [4, 1] 11 [0, 59, 2, 0] 0 0) = [0, 59, 2, 0] ∧
    isCrcValid (framebytesOf [2, 1] [4, 1] 11 [0, 59, 2, 0] 0 0) = true :=
  ⟨(assemble_parse_roundtrip [2, 1] [4, 1] 11 [0, 59, 2, 0] (by decide)
      (by decide) (by decide) (by decide)).2.2.2.2.2.2.1,
   (assemble_parse_roundtrip [2, 1] [4, 1] 11 [0, 59, 2, 0] (by decide)
      (by decide) (by decide) (by decide)).2.2.2.2.2.2.2⟩

/-! ## Write arbitration (C3) -/

/-- C3: for nonempty data, `Bus.write` hands the bytes to the stream and
returns `True` precisely when, at the moment of the call, the stream has
no readable bytes and the most recently framed function code was `ACK06`;
in every other case it returns `False` and writes nothing. -/
theorem busWrite_arbitration (canRead : Bool) (lastfunc : Option Nat)
    (data : List Nat) (hdata : data ≠ []) :
    (busWrite canRead lastfunc data = (true, data) ↔
      canRead = false ∧ lastfunc = some Function.ACK06) ∧
    (¬(canRead = false ∧ lastfunc = some Function.ACK06) →
      busWrite canRead lastfunc data = (false, [])) := by
  unfold busWrite
  by_cases h1 : canRead
  · simp [h1]
  · simp only [Bool.not_eq_true] at h1
    subst h1
    by_cases h2 : lastfunc = some Function.ACK06 <;> simp [h2]

/-- Witness for `busWrite_arbitration`: after an `ACK06` with an idle
stream the concrete write goes through; with `lastfunc = READ` it is
rejected and nothing is written. -/
theorem busWrite_arbitration_witness :
    busWrite false (some Function.ACK06) [1, 2] = (true, [1, 2]) ∧
    busWrite false (some Function.READ) [1, 2] = (false, []) :=
  ⟨(busWrite_arbitration false (some Function.ACK06) [1, 2]
      (by decide)).1.mpr ⟨rfl, rfl⟩,
   (busWrite_arbitration false (some Function.READ) [1, 2]
      (by decide)).2 (by simp [Function.READ, Function.ACK06])⟩

/-! ## Monitor send queue (`HvacMonitor._process_send_queue`, finitude.py)

`send_with_response` enqueues `(frame, reply_queue, deadline)` on the
thread-safe FIFO `self.send_queue`; the receive loop calls
`_process_send_queue(frame)` for every `ACK06`/`ACK02`/`NACK` frame it
reads.  We model a queue entry by the request's wire bytes, an identifier
for its reply slot, and its deadline; the reply-slot deliveries made by
one call are returned as a list of (waiter, delivered value) pairs.
`canWrite` is the outcome of the gated `self.bus.write(...)` call at that
instant (see `busWrite`). -/

/-- One entry of `self.send_queue`: `(pend[0].framebytes, pend[1], pend[2])`.
The in-flight `ParsedFrame(pend[0].framebytes)` shares the same bytes. -/
structure QEntry where
  fb : List Nat
  waiter : Nat
  expires : Nat
  deriving DecidableEq, Repr

/-- The monitor state touched by `_process_send_queue`: `self.pending_frame`
(a single optional slot, so at most one transaction is ever in flight) and
`self.send_queue` (head = next `get_nowait()` result; `put` appends at the
tail). -/
structure SendState where
  pending : Option QEntry
  sendq : List QEntry
  deriving DecidableEq, Repr

/-- `HvacMonitor._process_send_queue(ackframe)`. -/
def processSendQueue (s : SendState) (ack : List Nat) (now : Nat)
    (canWrite : Bool) : SendState × List (Nat × Option (List Nat)) :=
  let step1 : Option QEntry × List (Nat × Option (List Nat)) :=
    match s.pending with
    | some p =>
      if pSource p.fb = pDest ack ∧ pDest p.fb = pSource ack then
        (none, [(p.waiter, some ack)])
      else if p.expires < now then (none, [(p.waiter, none)])
      else (some p, [])
    | none => (none, [])
  let pending1 := step1.1
  let deliveries := step1.2
  if pFunc ack = Function.ACK06 ∧ pending1 = none then
    match s.sendq with
    | [] => ({ pending := pending1, sendq := [] }, deliveries)
    | pend :: rest =>
      if canWrite then ({ pending := some pend, sendq := rest }, deliveries)
      else ({ pending := pending1, sendq := rest ++ [pend] }, deliveries)
  else ({ pending := pending1, sendq := s.sendq }, deliveries)

/-- C6: at most one transaction is in flight (structurally: `pending` is a
single `Option` slot), and when a transaction is in flight as an
`ACK06`/`ACK02`/`NACK` frame is processed, exactly one of three things
happens: the frame's source/dest is the swap of the request's dest/source
and the frame is delivered to the waiter (retiring the transaction); or it
is not and the deadline has passed, and `None` is delivered to the waiter
(retiring the transaction); or neither, and the transaction stays in
flight untouched with nothing delivered. -/
theorem single_inflight_retirement (s : SendState) (ack : List Nat)
    (now : Nat) (canWrite : Bool) (p : QEntry)
    (hfunc : pFunc ack = Function.ACK06 ∨ pFunc ack = Function.ACK02 ∨
      pFunc ack = Function.NACK)
    (hp : s.pending = some p) :
    (pSource p.fb = pDest ack ∧ pDest p.fb = pSource ack ∧
      (processSendQueue s ack now canWrite).2 = [(p.waiter, some ack)]) ∨
    (¬(pSource p.fb = pDest ack ∧ pDest p.fb = pSource ack) ∧
      p.expires < now ∧
      (processSendQueue s ack now canWrite).2 = [(p.waiter, none)]) ∨
    (¬(pSource p.fb = pDest ack ∧ pDest p.fb = pSource ack) ∧
      ¬ p.expires < now ∧
      (processSendQueue s ack now canWrite).2 = [] ∧
      (processSendQueue s ack now canWrite).1.pending = some p ∧
      (processSendQueue s ack now canWrite).1.sendq = s.sendq) := by
  clear hfunc
  unfold processSendQueue
  rw [hp]
  by_cases hsw : pSource p.fb = pDest ack ∧ pDest p.fb = pSource ack
  · left
    refine ⟨hsw.1, hsw.2, ?_⟩
    simp only [if_pos hsw]
    split
    · split
      · rfl
      · split <;> rfl
    · rfl
  · by_cases hexp : p.expires < now
    · right; left
      refine ⟨hsw, hexp, ?_⟩
      simp only [if_neg hsw, if_pos hexp]
      split
      · split
        · rfl
        · split <;> rfl
      · rfl
    · right; right
      refine ⟨hsw, hexp, ?_⟩
      simp only [if_neg hsw, if_neg hexp]
      rw [if_neg (by simp)]
      exact ⟨rfl, rfl, rfl⟩

/-- Witness for `single_inflight_retirement`: a concrete in-flight request
from `02 01` to `04 01` is retired by a correlated `ACK06` from `04 01`
to `02 01`. -/
theorem single_inflight_retirement_witness :
    (processSendQueue ⟨some ⟨frameB, 7, 100⟩, []⟩
        [4, 1, 2, 1, 0, 0, 0, 6, 109, 44] 0 false).2 =
      [(7, some [4, 1, 2, 1, 0, 0, 0, 6, 109, 44])] := by
  have h := single_inflight_retirement ⟨some ⟨frameB, 7, 100⟩, []⟩
    [4, 1, 2, 1, 0, 0, 0, 6, 109, 44] 0 false ⟨frameB, 7, 100⟩
    (Or.inl (by decide)) rfl
  rcases h with ⟨-, -, h⟩ | ⟨hsw, -, -⟩ | ⟨hsw, -, -, -, -⟩
  · exact h
  · exact absurd (by decide) hsw
  · exact absurd (by decide) hsw

/-- C7 counterexample: with two queued transactions and a rejected
(arbitration-failed) write on an `ACK06`, the dequeued head is re-enqueued
at the TAIL (`SimpleQueue.put` appends), not at the head: the queue
`[A, B]` becomes `[B, A]`, so on the next `ACK06` the bus is handed `B`
before the earlier-enqueued `A` — hand-off is not FIFO. -/
theorem sendqueue_retry_counterexample :
    (processSendQueue ⟨none, [⟨[1], 1, 100⟩, ⟨[2], 2, 100⟩]⟩
        [9, 9, 9, 9, 0, 0, 0, 6] 0 false).1.sendq =
      [⟨[2], 2, 100⟩, ⟨[1], 1, 100⟩] ∧
    ([⟨[2], 2, 100⟩, ⟨[1], 1, 100⟩] : List QEntry) ≠
      [⟨[1], 1, 100⟩, ⟨[2], 2, 100⟩] := by
  constructor <;> decide

/-- C7 amended: when an `ACK06` arrives with no transaction in flight, the
head of the send queue is dequeued and handed to the gated bus write; if
the write is rejected the entry is re-enqueued at the *tail* of the queue
(so FIFO hand-off order is preserved only when no other transaction is
queued, and the retry happens on a later `ACK06` once the entry reaches
the head again); if the write is accepted the head becomes the in-flight
transaction, so accepted hand-offs take entries in enqueue (FIFO) order. -/
theorem sendqueue_retry_tail (s : SendState) (ack : List Nat) (now : Nat)
    (e : QEntry) (rest : List QEntry)
    (hp : s.pending = none) (hfunc : pFunc ack = Function.ACK06)
    (hq : s.sendq = e :: rest) :
    processSendQueue s ack now false = (⟨none, rest ++ [e]⟩, []) ∧
    (rest = [] → (processSendQueue s ack now false).1.sendq = [e]) ∧
    processSendQueue s ack now true = (⟨some e, rest⟩, []) := by
  unfold processSendQueue
  rw [hp, hq]
  refine ⟨?_, ?_, ?_⟩
  · rw [if_pos ⟨hfunc, rfl⟩]; rfl
  · intro hrest
    rw [if_pos ⟨hfunc, rfl⟩]
    simp [hrest]
  · rw [if_pos ⟨hfunc, rfl⟩]; rfl

/-- Witness for `sendqueue_retry_tail` at a concrete one-element queue. -/
theorem sendqueue_retry_tail_witness :
    processSendQueue ⟨none, [⟨frameB, 3, 50⟩]⟩
        [9, 9, 9, 9, 0, 0, 0, 6] 0 false = (⟨none, [⟨frameB, 3, 50⟩]⟩, []) :=
  (sendqueue_retry_tail ⟨none, [⟨frameB, 3, 50⟩]⟩ [9, 9, 9, 9, 0, 0, 0, 6]
    0 ⟨frameB, 3, 50⟩ [] rfl (by decide) rfl).1

/-! ## Change-only capture (`HvacMonitor.store_frame`, finitude.py)

Python dicts are modelled as insertion-ordered association lists:
assignment overwrites in place, a fresh key is appended. -/

/-- Dict assignment `d[k] = v` for an insertion-ordered association list. -/
def alistSet {α β : Type} [BEq α] (k : α) (v : β) :
    List (α × β) → List (α × β)
  | [] => [(k, v)]
  | (k', v') :: rest =>
    if k' == k then (k, v) :: rest else (k', v') :: alistSet k v rest

/-- `ParsedFrame.get_printable_address`: `hex(b0*256 + b1)`. -/
def printableAddress (sd : List Nat) : String :=
  "0x" ++ String.mk (Nat.toDigits 16 (sd.getD 0 0 * 256 + sd.getD 1 0))

/-- The state touched by `store_frame`: `self.register_to_rest` (label →
(last remainder, last frame)), `self.framedata_to_index` (payload →
1-based index, insertion ordered) and `self.frames` (the change log of
`(timestamp, label, index)` tuples). -/
structure StoreState where
  registerToRest : List (String × (List Nat × List Nat))
  framedataToIndex : List (List Nat × Nat)
  frames : List (Nat × String × Nat)
  deriving DecidableEq, Repr

/-- The `WRITE(<source>):` prefix prepended to the stored label. -/
def writeTag (fb : List Nat) : String :=
  if pFunc fb = Function.WRITE then
    "WRITE(" ++ printableAddress (pSource fb) ++ "):"
  else ""

/-- The index `store_frame` uses for this frame's payload: an existing
index for a byte-identical payload, else `len(table) + 1`. -/
def storedIndex (s : StoreState) (fb : List Nat) : Nat :=
  match List.lookup (pData fb) s.framedataToIndex with
  | some i => i
  | none => s.framedataToIndex.length + 1

/-- `HvacMonitor.store_frame(frame, name, rest)` (`now` is `time.time()`). -/
def storeFrame (s : StoreState) (fb : List Nat) (name : String)
    (rest : List Nat) (now : Nat) : StoreState :=
  let lastrest := (List.lookup name s.registerToRest).map Prod.fst
  let s1 : StoreState :=
    { s with registerToRest := alistSet name (rest, fb) s.registerToRest }
  if rest = [] ∨ lastrest = some rest then s1
  else
    let table :=
      match List.lookup (pData fb) s.framedataToIndex with
      | some _ => s.framedataToIndex
      | none => s.framedataToIndex ++
          [(pData fb, s.framedataToIndex.length + 1)]
    { s1 with
      framedataToIndex := table,
      frames := s.frames ++ [(now, writeTag fb ++ name, storedIndex s fb)] }

/-- The payload-index table invariant: indices are exactly 1..n in
insertion order, and payload keys are pairwise distinct (so byte-identical
payloads share an index and distinct payloads get distinct indices). -/
def IndexInv (t : List (List Nat × Nat)) : Prop :=
  t.map Prod.snd = List.range' 1 t.length ∧ (t.map Prod.fst).Nodup

theorem lookup_none_not_mem {α β : Type} [BEq α] [LawfulBEq α] (k : α)
    (l : List (α × β)) (h : List.lookup k l = none) :
    k ∉ l.map Prod.fst := by
  induction l with
  | nil => simp
  | cons kv rest ih =>
    cases hbeq : k == kv.1 with
    | true =>
      simp only [List.lookup, hbeq] at h
      exact Option.noConfusion h
    | false =>
      simp only [List.lookup, hbeq] at h
      simp only [List.map_cons, List.mem_cons]
      rintro (h1 | h2)
      · rw [h1] at hbeq; simp at hbeq
      · exact ih h h2

/-- C8 counterexample: the remainder sequence `[1]`, `[]`, `[1]` for one
label.  The third call appends a change-log tuple although its remainder
`[1]` is byte-identical to the last *captured* remainder for that label
(captured by the first call; the second call captured nothing): the code
compares against the last *seen* remainder (`register_to_rest` is
overwritten on every call, capture or not), not the last captured one, so
the claimed "iff" fails. -/
theorem storeFrame_changeonly_counterexample :
    (storeFrame (storeFrame (storeFrame ⟨[], [], []⟩ frameA "L" [1] 10)
        frameA "L" [] 11) frameA "L" [1] 12).frames =
      [(10, "L", 1), (12, "L", 1)] ∧
    (storeFrame (storeFrame ⟨[], [], []⟩ frameA "L" [1] 10)
        frameA "L" [] 11).frames = [(10, "L", 1)] := by
  constructor <;> rfl

/-- C8 amended: `store_frame` appends a `(timestamp, label, index)` tuple
iff the remainder is non-empty and differs from the last remainder *seen*
for that label (the remainder of the previous `store_frame` call for the
label, whether or not that call captured anything); and the payload-index
table maps byte-identical payloads to the same index and assigns distinct
payloads distinct consecutive indices starting at 1. -/
theorem storeFrame_changeonly (s : StoreState) (fb : List Nat)
    (name : String) (rest : List Nat) (now : Nat) :
    ((rest = [] ∨ (List.lookup name s.registerToRest).map Prod.fst = some rest) →
      (storeFrame s fb name rest now).frames = s.frames ∧
      (storeFrame s fb name rest now).framedataToIndex = s.framedataToIndex) ∧
    (rest ≠ [] → (List.lookup name s.registerToRest).map Prod.fst ≠ some rest →
      (storeFrame s fb name rest now).frames =
        s.frames ++ [(now, writeTag fb ++ name, storedIndex s fb)]) ∧
    (∀ i, List.lookup (pData fb) s.framedataToIndex = some i →
      (storeFrame s fb name rest now).framedataToIndex = s.framedataToIndex ∧
      storedIndex s fb = i) ∧
    (IndexInv s.framedataToIndex →
      IndexInv (storeFrame s fb name rest now).framedataToIndex) := by
  refine ⟨?_, ?_, ?_, ?_⟩
  · intro h
    unfold storeFrame
    rw [if_pos h]
    exact ⟨rfl, rfl⟩
  · intro h1 h2
    unfold storeFrame
    rw [if_neg (by tauto)]
  · intro i hi
    constructor
    · simp only [storeFrame]
      by_cases hc : rest = [] ∨
          (List.lookup name s.registerToRest).map Prod.fst = some rest
      · rw [if_pos hc]
      · rw [if_neg hc]
        simp only [hi]
    · unfold storedIndex
      rw [hi]
  · intro hinv
    simp only [storeFrame]
    by_cases hc : rest = [] ∨
        (List.lookup name s.registerToRest).map Prod.fst = some rest
    · rw [if_pos hc]; exact hinv
    · rw [if_neg hc]
      cases hlook : List.lookup (pData fb) s.framedataToIndex with
      | some j => simp only [hlook]; exact hinv
      | none =>
        simp only [hlook]
        obtain ⟨hrange, hnodup⟩ := hinv
        constructor
        · have hlen : (s.framedataToIndex ++
              [(pData fb, s.framedataToIndex.length + 1)]).length =
              s.framedataToIndex.length + 1 := by simp
          rw [List.map_append, hrange, hlen, List.range'_concat]
          simp [Nat.add_comm]
        · rw [List.map_append]
          simp only [List.map_cons, List.map_nil]
          rw [List.nodup_append]
          refine ⟨hnodup, List.nodup_singleton _, ?_⟩
          intro a ha hb
          simp at hb
          subst hb
          exact lookup_none_not_mem _ _ hlook ha

/-- Witness for `storeFrame_changeonly`: from the empty state, a frame with
a fresh non-empty remainder is appended with index 1 and the table
invariant is preserved. -/
theorem storeFrame_changeonly_witness :
    (storeFrame ⟨[], [], []⟩ frameA "L" [1] 10).frames =
      [] ++ [(10, writeTag frameA ++ "L", storedIndex ⟨[], [], []⟩ frameA)] ∧
    IndexInv (storeFrame ⟨[], [], []⟩ frameA "L" [1] 10).framedataToIndex :=
  ⟨(storeFrame_changeonly ⟨[], [], []⟩ frameA "L" [1] 10).2.1 (by decide)
      (by decide),
   (storeFrame_changeonly ⟨[], [], []⟩ frameA "L" [1] 10).2.2.2
      ⟨rfl, List.nodup_nil⟩⟩

/-! ## StreamFactory (C9)

`StreamFactory(where)` in frames.py dispatches on the URI scheme obtained
from `where.partition('://')`.  `str.partition` splits at the *first*
occurrence of the separator; we model it on lists of characters. -/

instance exceptDecEq {ε α : Type} [DecidableEq ε] [DecidableEq α] :
    DecidableEq (Except ε α) := fun x y =>
  match x, y with
  | .ok a, .ok b =>
    if h : a = b then .isTrue (by rw [h])
    else .isFalse (fun hc => h (Except.ok.inj hc))
  | .error e, .error f =>
    if h : e = f then .isTrue (by rw [h])
    else .isFalse (fun hc => h (Except.error.inj hc))
  | .ok _, .error _ => .isFalse (fun hc => Except.noConfusion hc)
  | .error _, .ok _ => .isFalse (fun hc => Except.noConfusion hc)

/-- Split at the first occurrence of `sep`: `some (before, after)` if `sep`
occurs, else `none`. -/
def splitFirst (sep : List Char) : List Char → Option (List Char × List Char)
  | [] => if sep.isEmpty then some ([], []) else none
  | c :: cs =>
    if sep.isPrefixOf (c :: cs) then some ([], (c :: cs).drop sep.length)
    else (splitFirst sep cs).map (fun pq => (c :: pq.1, pq.2))

/-- `str.partition(sep)`: `(head, found, tail)` with `found = true` iff the
separator occurs (Python returns the separator itself in the middle slot;
`StreamFactory` only tests its truthiness). -/
def pyPartition (s sep : String) : String × Bool × String :=
  match splitFirst sep.data s.data with
  | some (pre, post) => (⟨pre⟩, true, ⟨post⟩)
  | none => (s, false, "")

/-- The kind of stream object `StreamFactory` would construct. -/
inductive StreamKind where
  | serial (path : String)
  | sock (host : String) (port : Nat)
  deriving DecidableEq, Repr

/-- `int(s)` on the digit strings used for port numbers: all-decimal-digit
nonempty strings parse; anything else raises `ValueError`.  (An optional
sign/whitespace would also be accepted by Python; port substrings of the
URIs in scope are plain digits.) -/
def pyIntDec (s : String) : Except PyError Nat :=
  if s.data ≠ [] ∧ s.data.all Char.isDigit then
    Except.ok (s.data.foldl (fun acc c => acc * 10 + (c.toNat - 48)) 0)
  else Except.error PyError.valueError

/-- `StreamFactory(where)`: no separator → serial device at `where`;
`file://` → serial device at the rest; `telnet://` → TCP socket (default
port 23); any other scheme → `CarrierError`. -/
def StreamFactory (whre : String) : Except PyError StreamKind :=
  let (scheme, sep, rest) := pyPartition whre "://"
  if !sep then Except.ok (StreamKind.serial whre)
  else if scheme = "file" then Except.ok (StreamKind.serial rest)
  else if scheme = "telnet" then
    let (host, colon, portStr) := pyPartition rest ":"
    if colon then
      match pyIntDec portStr with
      | Except.ok port => Except.ok (StreamKind.sock host port)
      | Except.error e => Except.error e
    else Except.ok (StreamKind.sock host 23)
  else Except.error PyError.carrierError

theorem splitFirst_localfile (p : List Char) :
    splitFirst [':', '/', '/']
      ('l' :: 'o' :: 'c' :: 'a' :: 'l' :: 'f' :: 'i' :: 'l' :: 'e' ::
        ':' :: '/' :: '/' :: p) =
      some (['l', 'o', 'c', 'a', 'l', 'f', 'i', 'l', 'e'], p) := by
  simp [splitFirst, List.isPrefixOf]

/-- C9 counterexample: the claim says `StreamFactory('localfile://p')`
returns (without raising) a read-only replay stream; in this code base
`StreamFactory` recognises only the schemes `file` and `telnet` (plus
bare paths), so `localfile://p` raises `CarrierError('unknown scheme
...')` for the concrete path `p = "x"`. -/
theorem streamFactory_localfile_counterexample :
    StreamFactory "localfile://x" = Except.error PyError.carrierError := by
  decide

/-- C9 amended: for every path `p`, `StreamFactory` applied to
`'localfile://' ++ p` raises `CarrierError` (the scheme is unknown to this
code; only bare paths, `file://` and `telnet://` are supported). -/
theorem streamFactory_localfile (p : String) :
    StreamFactory ("localfile://" ++ p) = Except.error PyError.carrierError := by
  unfold StreamFactory pyPartition
  have hdata : ("localfile://" ++ p).data =
      'l' :: 'o' :: 'c' :: 'a' :: 'l' :: 'f' :: 'i' :: 'l' :: 'e' ::
        ':' :: '/' :: '/' :: p.data := by
    rw [String.data_append]
    rfl
  rw [hdata]
  rw [show ("://" : String).data = [':', '/', '/'] from rfl]
  rw [splitFirst_localfile]
  simp

/-! ## Register decoder (top-level frames.py, the module finitude.py imports)

`finitude.py` does `import frames`, i.e. the top-level `frames.py`, whose
`ParsedFrame` carries its own `REGISTER_INFO` table (9 entries,
`REPEATED_8_ZONES = 0`) and a `parse_field` helper.  Values are ints or
strings (this table has no REPEATING records, so no list values arise). -/

/-- `class Field(Enum)` from the top-level frames.py. -/
inductive Field where
  | UNKNOWN
  | UTF8
  | NAME
  | UINT8
  | INT8
  | UINT16
  deriving DecidableEq, Repr

/-- A decoded register value: Python int or str. -/
inductive PyVal where
  | int (n : Int)
  | str (s : String)
  deriving DecidableEq, Repr

/-- One field descriptor `(reps, field, *fieldname)`; `REPEATED_8_ZONES = 0`
is the zone-repetition sentinel in the `reps` slot. -/
def FmtEntry : Type := Nat × Field × Option String

/-- `ParsedFrame.REGISTER_INFO` from the top-level frames.py, verbatim. -/
def REGISTER_INFO : List (String × String × List (Nat × Field × Option String)) := [
  ("000104", ("DeviceInfo", [(48, Field.UTF8, some "Module"),
    (16, Field.UTF8, some "Firmware"), (20, Field.UTF8, some "Model"),
    (36, Field.UTF8, some "Serial")])),
  ("000306", ("AirHandler06", [(1, Field.UNKNOWN, none),
    (1, Field.UINT16, some "BlowerRPM")])),
  ("000316", ("AirHandler16", [(1, Field.UINT8, some "State"),
    (3, Field.UNKNOWN, none), (1, Field.UINT16, some "AirflowCFM")])),
  ("000319", ("DamperState", [(0, Field.UINT8, some "DamperPosition")])),
  ("003b02", ("TStatCurrentParams", [(3, Field.UNKNOWN, none),
    (0, Field.UINT8, some "CurrentTemp"),
    (0, Field.UINT8, some "CurrentHumidity"), (1, Field.UNKNOWN, none),
    (1, Field.INT8, some "OutdoorAirTemp"),
    (1, Field.UINT8, some "ZonesUnoccupied"), (1, Field.UINT8, some "Mode"),
    (5, Field.UNKNOWN, none), (1, Field.UINT8, some "DisplayedZone")])),
  ("003b03", ("TStatZoneParams", [(3, Field.UNKNOWN, none),
    (0, Field.UINT8, some "FanMode"), (1, Field.UINT8, some "ZonesHolding"),
    (0, Field.UINT8, some "CurrentHeatSetpoint"),
    (0, Field.UINT8, some "CurrentCoolSetpoint"),
    (0, Field.UINT8, some "CurrentHumiditySetpoint"),
    (1, Field.UINT8, some "FanAutoConfig"), (1, Field.UNKNOWN, none),
    (0, Field.UINT16, some "HoldDuration"), (0, Field.NAME, some "Name")])),
  ("003b04", ("TStatVacationParams", [(1, Field.UINT8, some "Active"),
    (1, Field.UINT16, some "DaysTimes7"), (1, Field.UINT8, some "MinTemp"),
    (1, Field.UINT8, some "MaxTemp"), (1, Field.UINT8, some "MinHumidity"),
    (1, Field.UINT8, some "MaxHumidity"), (1, Field.UINT8, some "FanMode")])),
  ("003e01", ("HeatPump01", [(1, Field.UINT16, some "OutsideTempTimes16"),
    (1, Field.UINT16, some "CoilTempTimes16")])),
  ("003e02", ("HeatPump02", [(1, Field.UINT8, some "StageShift1")]))]

/-- `'%02x' % b`: lowercase hex, left-padded to two digits. -/
def byteToHex (b : Nat) : String :=
  if b < 16 then "0" ++ String.mk (Nat.toDigits 16 b)
  else String.mk (Nat.toDigits 16 b)

/-- `bytestohex(rbytes)`: hex digits, or `str(b'')` for the empty string. -/
def bytestohex (rbytes : List Nat) : String :=
  if rbytes = [] then "b''" else String.join (rbytes.map byteToHex)

/-- `bytes.decode()` (strict UTF-8); raises `UnicodeDecodeError` on invalid
byte sequences.  (Frame bytes are < 256, matching the `UInt8` cast.) -/
def utf8Decode (l : List Nat) : Except PyError String :=
  match String.fromUTF8? (ByteArray.mk (l.map (fun n => UInt8.ofNat n)).toArray) with
  | some s => Except.ok s
  | none => Except.error PyError.unicodeDecodeError

/-- `str.strip('\0')`: drop NUL characters from both ends. -/
def stripNuls (s : String) : String :=
  String.mk (((s.data.dropWhile (fun c => c = Char.ofNat 0)).reverse.dropWhile
    (fun c => c = Char.ofNat 0)).reverse)

/-- `parse_field(cursor, reps, field)` (inner helper of
`ParsedFrame.parse_register`, top-level frames.py): `NAME` is a 12-byte
`UTF8`; `UTF8` decodes a (possibly short) slice and strips NULs; `UINT8`
indexes `cursor[0]` (IndexError when empty); `INT8`/`UINT16` unpack
big-endian via `struct` (struct.error when the slice is short); any other
field reaching the tail hits `assert False`. -/
def parse_field (cursor : List Nat) (reps : Nat) (field : Field) :
    Except PyError (PyVal × List Nat) :=
  if field = Field.NAME then
    if reps ≠ 1 then Except.error PyError.assertionError
    else
      match utf8Decode (cursor.take 12) with
      | Except.ok s => Except.ok (PyVal.str (stripNuls s), cursor.drop 12)
      | Except.error e => Except.error e
  else if field = Field.UTF8 then
    if reps = 0 then Except.error PyError.assertionError
    else
      match utf8Decode (cursor.take reps) with
      | Except.ok s => Except.ok (PyVal.str (stripNuls s), cursor.drop reps)
      | Except.error e => Except.error e
  else if reps ≠ 1 then Except.error PyError.assertionError
  else if field = Field.UINT8 then
    match cursor with
    | [] => Except.error PyError.indexError
    | b :: rest => Except.ok (PyVal.int b, rest)
  else if field = Field.INT8 then
    match cursor with
    | [] => Except.error PyError.structError
    | b :: rest =>
      Except.ok (PyVal.int (if b < 128 then (b : Int) else (b : Int) - 256), rest)
  else if field = Field.UINT16 then
    match cursor with
    | b0 :: b1 :: rest => Except.ok (PyVal.int (256 * b0 + b1), rest)
    | _ => Except.error PyError.structError
  else Except.error PyError.assertionError

/-- The `for zone in range(8)` loop of the `REPEATED_8_ZONES` branch:
`values[f'Zone{zone+1}{fieldname[0]}'] = parse_field(cursor, 1, field)`. -/
def parseZones (field : Field) (fname : String) :
    Nat → Nat → List Nat → List (String × PyVal) →
    Except PyError (List (String × PyVal) × List Nat)
  | 0, _, cursor, values => Except.ok (values, cursor)
  | n + 1, zone, cursor, values =>
    match parse_field cursor 1 field with
    | Except.error e => Except.error e
    | Except.ok (value, cursor') =>
      parseZones field fname n (zone + 1) cursor'
        (alistSet ("Zone" ++ toString zone ++ fname) value values)

/-- The `for (reps, field, *fieldname) in fmt` walk of
`ParsedFrame.parse_register` (top-level frames.py): `reps == 0` is the
zone sentinel; `UNKNOWN` silently skips `reps` bytes (Python slicing is
total); otherwise one field is parsed, with an `assert` that the name is
not already present. -/
def fmtWalk : List (Nat × Field × Option String) → List Nat →
    List (String × PyVal) → Except PyError (List (String × PyVal) × List Nat)
  | [], cursor, values => Except.ok (values, cursor)
  | (reps, field, fieldname) :: rest, cursor, values =>
    if reps = 0 then
      match fieldname with
      | none => Except.error PyError.assertionError
      | some fname =>
        match parseZones field fname 8 1 cursor values with
        | Except.error e => Except.error e
        | Except.ok (values', cursor') => fmtWalk rest cursor' values'
    else if field = Field.UNKNOWN then
      match fieldname with
      | some _ => Except.error PyError.assertionError
      | none => fmtWalk rest (cursor.drop reps) values
    else
      match fieldname with
      | none => Except.error PyError.assertionError
      | some fname =>
        match parse_field cursor reps field with
        | Except.error e => Except.error e
        | Except.ok (value, cursor') =>
          if values.any (fun kv => kv.1 = fname) then
            Except.error PyError.assertionError
          else fmtWalk rest cursor' (alistSet fname value values)

/-- `k = bytestohex(self.data[0:3])`. -/
def registerKey (fb : List Nat) : String := bytestohex ((pData fb).take 3)

/-- `k2 = k[2:] if k.startswith('00') else k`. -/
def registerK2 (k : String) : String :=
  match k.data with
  | '0' :: '0' :: r => String.mk r
  | _ => k

/-- `(name, fmt) = self.REGISTER_INFO.get(k, ('register', []))`. -/
def registerPair (fb : List Nat) : String × List (Nat × Field × Option String) :=
  (List.lookup (registerKey fb) REGISTER_INFO).getD ("register", [])

/-- `ParsedFrame._get_register_info`: asserts the function code is
READ/WRITE/ACK06 and the length is ≥ 3, then returns the printable label
`f'{name}({k2})'` and the descriptor list. -/
def getRegisterInfo (fb : List Nat) :
    Except PyError (String × List (Nat × Field × Option String)) :=
  if ¬(pFunc fb = Function.READ ∨ pFunc fb = Function.WRITE ∨
      pFunc fb = Function.ACK06) then Except.error PyError.assertionError
  else if pLength fb < 3 then Except.error PyError.assertionError
  else Except.ok ((registerPair fb).1 ++ "(" ++
    registerK2 (registerKey fb) ++ ")", (registerPair fb).2)

/-- `ParsedFrame.parse_register` (top-level frames.py). -/
def parseRegister (fb : List Nat) :
    Except PyError (String × List (String × PyVal) × List Nat) :=
  match getRegisterInfo fb with
  | Except.error e => Except.error e
  | Except.ok (name, fmt) =>
    if fmt = [] then Except.ok (name, [], pData fb)
    else
      match fmtWalk fmt ((pData fb).drop 3) [] with
      | Except.error e => Except.error e
      | Except.ok (values, cursor) => Except.ok (name, values, cursor)

/-! ## Monitor frame processing (`HvacMonitor.process_frame`, finitude.py) -/

/-- `HvacMonitor.TABLE_NAME_MAP`. -/
def TABLE_NAME_MAP : List (String × String) := [
  ("AirHandler06", "airhandler"), ("AirHandler16", "airhandler"),
  ("TStatCurrentParams", ""), ("TStatZoneParams", ""),
  ("TStatVacationParams", "vacation"), ("HeatPump01", "heatpump"),
  ("HeatPump02", "heatpump")]

/-- The `Times7`/`Times16` metric-name rewrite of `_set_gauge`:
`(pre, times, post) = itemname.partition(sfx); if times and not post:
itemname = pre`. -/
def rewriteTimes (itemname sfx : String) : String :=
  let (pre, t, post) := pyPartition itemname sfx
  if t ∧ post = "" then pre else itemname

/-- The `RPM`/`CFM` lower-casing rewrite of `_set_gauge`. -/
def rewriteWord (itemname w lowerw : String) : Option String :=
  let (pre, found, post) := pyPartition itemname w
  if found then
    some (pre ++ (if pre ≠ "" then "_" else "") ++ lowerw ++
      (if post ≠ "" then "_" else "") ++ post)
  else none

/-- `HvacMonitor._set_gauge(tablename, itemname, v)` with the Prometheus
gauge updates (pure metric I/O) elided; only the control flow that can
raise is kept.  String values return immediately; list values cannot arise
from this decode table.  For an int, after the name rewrites, the
`itemname == 'Mode' and not tablename` branch constructs
`registers.HvacMode(v & 0x1f)`, which raises `ValueError` unless the low
five bits are 0..5 (`HvacMode` in the top-level registers.py); every other
numeric path only sets gauges.  (`_set_zonename` and the zone-name cache
are index-safe and raise nothing, so they are elided as well.) -/
def setGauge (tablename itemname : String) (v : PyVal) : Except PyError Unit :=
  match v with
  | PyVal.str _ => Except.ok ()
  | PyVal.int n =>
    let itemname1 := rewriteTimes itemname "Times7"
    let itemname2 := rewriteTimes itemname1 "Times16"
    let itemname3 :=
      match rewriteWord itemname2 "RPM" "rpm" with
      | some s => s
      | none => (rewriteWord itemname2 "CFM" "cfm").getD itemname2
    if itemname3 = "Mode" ∧ tablename = "" then
      let mode := ((n % 32) + 32) % 32
      if mode < 6 then Except.ok () else Except.error PyError.valueError
    else Except.ok ()

/-- The publication step of `process_frame` once `(name, values, rest)` is
known: the `DeviceInfo(0104)` branch calls the Prometheus `Info` setter
(cannot raise), the `Temperatures(0302)` branch reads
`values['TempSensors']` (KeyError when absent — and this decode table
never produces that key, cf. `registerName_ne_temperatures`), otherwise
each value goes through `_set_gauge`. -/
def publishValues (name : String) (values : List (String × PyVal)) :
    Except PyError Unit :=
  if values = [] then Except.ok ()
  else if name = "DeviceInfo(0104)" then Except.ok ()
  else if name = "Temperatures(0302)" then
    match List.lookup "TempSensors" values with
    | none => Except.error PyError.keyError
    | some _ => Except.error PyError.typeError
  else
    let basename := (pyPartition name "(").1
    let tablename := (List.lookup basename TABLE_NAME_MAP).getD basename
    values.forM (fun kv => setGauge tablename kv.1 kv.2)

/-- `HvacMonitor.process_frame(frame)`: for a WRITE/ACK06 frame with
`length >= 3`, decode the register — catching exactly `IndexError`, in
which case the frame is recorded with values `{'ERROR': 'parsing: ...'}`
and the raw payload as remainder — publish, and return the label and
remainder.  The model also returns the values map (in the source it flows
into the metric setters and the log).  Any exception other than
`IndexError` raised by the decode propagates out of `process_frame`. -/
def processFrame (fb : List Nat) :
    Except PyError (Option (String × List (String × PyVal) × List Nat)) :=
  if 3 ≤ pLength fb ∧ (pFunc fb = Function.WRITE ∨ pFunc fb = Function.ACK06)
  then
    match
      (match parseRegister fb with
       | Except.error PyError.indexError =>
         (match getRegisterInfo fb with
          | Except.ok nf => Except.ok (nf.1,
              [("ERROR", PyVal.str "parsing: IndexError")], pData fb)
          | Except.error e => Except.error e)
       | r => r) with
    | Except.error e => Except.error e
    | Except.ok (name, values, rest) =>
      match publishValues name values with
      | Except.error e => Except.error e
      | Except.ok () =>
        let addr := if pFunc fb = Function.ACK06 then pSource fb else pDest fb
        Except.ok (some (printableAddress addr ++ "_" ++ name, values, rest))
  else Except.ok none

/-- The run-loop boundary of `HvacMonitor.run`: `except (OSError,
frames.CarrierError)` — only transport faults are caught (triggering a
reconnect after 1 s); any other exception escapes `run` and the monitor
thread terminates. -/
def runLoopCatches (e : PyError) : Bool :=
  match e with
  | PyError.osError => true
  | PyError.carrierError => true
  | _ => false

/-- Whether the monitor thread survives processing this frame (an error
survives iff the run loop catches it). -/
def monitorSurvivesFrame (fb : List Nat) : Bool :=
  match processFrame fb with
  | Except.ok _ => true
  | Except.error e => runLoopCatches e

/-- An `ACK06` response for register `003e01` (`HeatPump01`, two `UINT16`
fields) whose payload has only one byte after the register id: decoding
the first `UINT16` hits `struct.unpack('>H', ...)` on a short buffer. -/
def frameHP : List Nat := [32, 1, 64, 1, 4, 0, 0, 6, 0, 62, 1, 255, 35, 232]

/-- An `ACK06` response for register `000319` (`DamperState`, eight zone
`UINT8`s) with an empty payload after the register id: the first zone
read is `cursor[0]` on an empty bytes object — `IndexError`. -/
def frameDS : List Nat := [32, 1, 96, 1, 3, 0, 0, 6, 0, 3, 25, 97, 121]

theorem lookup_some_mem {α β : Type} [BEq α] (k : α) (l : List (α × β))
    (v : β) (h : List.lookup k l = some v) : v ∈ l.map Prod.snd := by
  induction l with
  | nil => simp [List.lookup] at h
  | cons kv rest ih =>
    cases hbeq : k == kv.1 with
    | true =>
      simp only [List.lookup, hbeq] at h
      rw [Option.some_inj] at h
      simp [← h]
    | false =>
      simp only [List.lookup, hbeq] at h
      exact List.mem_cons_of_mem _ (ih h)

theorem getRegisterInfo_ok (fb : List Nat) (hlen : 3 ≤ pLength fb)
    (hfunc : pFunc fb = Function.WRITE ∨ pFunc fb = Function.ACK06) :
    getRegisterInfo fb = Except.ok ((registerPair fb).1 ++ "(" ++
      registerK2 (registerKey fb) ++ ")", (registerPair fb).2) := by
  unfold getRegisterInfo
  rw [if_neg (not_not_intro (Or.inr hfunc)), if_neg (by omega)]

/-- The register name half of `REGISTER_INFO.get(k, ('register', []))` is
one of the nine table names or the default `'register'`. -/
theorem registerPair_fst_mem (fb : List Nat) :
    (registerPair fb).1 ∈ ["register", "DeviceInfo", "AirHandler06",
      "AirHandler16", "DamperState", "TStatCurrentParams", "TStatZoneParams",
      "TStatVacationParams", "HeatPump01", "HeatPump02"] := by
  unfold registerPair
  cases hlk : List.lookup (registerKey fb) REGISTER_INFO with
  | none => simp
  | some v =>
    have hv := lookup_some_mem _ _ _ hlk
    simp only [REGISTER_INFO, List.map_cons, List.map_nil, List.mem_cons,
      List.not_mem_nil, or_false] at hv
    simp only [Option.getD_some]
    rcases hv with rfl | rfl | rfl | rfl | rfl | rfl | rfl | rfl | rfl <;> simp

/-- No label this decode table can produce is `Temperatures(0302)` (that
register exists only in the packaged registers.py, not in the top-level
frames.py table that finitude.py uses). -/
theorem registerName_ne_temperatures (fb : List Nat) :
    (registerPair fb).1 ++ "(" ++ registerK2 (registerKey fb) ++ ")" ≠
      "Temperatures(0302)" := by
  have h := registerPair_fst_mem fb
  revert h
  generalize registerK2 (registerKey fb) = k2
  generalize (registerPair fb).1 = nm
  intro h
  simp only [List.mem_cons, List.not_mem_nil, or_false] at h
  rcases h with rfl | rfl | rfl | rfl | rfl | rfl | rfl | rfl | rfl | rfl <;>
  · intro heq
    have hd := congrArg String.data heq
    first
    | (injection hd with hc hd2
       exact absurd hc (by decide))
    | (injection hd with hc hd2
       injection hd2 with hc2 hd3
       exact absurd hc2 (by decide))

/-- C5 counterexample: the short-payload `HeatPump01` frame `frameHP`
raises `struct.error` inside the decode; `process_frame` catches only
`IndexError` and the run loop catches only `OSError`/`CarrierError`, so
the error is NOT recorded as an `{'ERROR': ...}` entry — it escapes `run`
and the monitor thread terminates, contrary to the claim. -/
theorem monitor_error_boundary_counterexample :
    parseRegister frameHP = Except.error PyError.structError ∧
    processFrame frameHP = Except.error PyError.structError ∧
    monitorSurvivesFrame frameHP = false := by
  refine ⟨by decide, by decide, by decide⟩

/-- C5 amended: (i) for every WRITE/ACK06 frame whose register decode
raises `IndexError` (e.g. a payload short for a `UINT8` or zone-repeated
field), `process_frame` catches it and the frame is processed normally
with label `<device>_<register label>`, values `{'ERROR': 'parsing: ...'}`
and the raw payload as remainder, so processing continues; (ii) the
run-loop boundary catches exactly `OSError` and `CarrierError` (the
transport faults, triggering reconnect) — not every runtime error, so a
decode failure raising `struct.error` (short `INT8`/`UINT16` payload)
terminates the monitor thread, cf. the counterexample. -/
theorem monitor_error_boundary :
    (∀ fb name fmt, 3 ≤ pLength fb →
      (pFunc fb = Function.WRITE ∨ pFunc fb = Function.ACK06) →
      getRegisterInfo fb = Except.ok (name, fmt) →
      parseRegister fb = Except.error PyError.indexError →
      processFrame fb = Except.ok (some (
        printableAddress (if pFunc fb = Function.ACK06 then pSource fb
          else pDest fb) ++ "_" ++ name,
        [("ERROR", PyVal.str "parsing: IndexError")], pData fb))) ∧
    (∀ e, runLoopCatches e = true ↔
      (e = PyError.osError ∨ e = PyError.carrierError)) := by
  constructor
  · intro fb name fmt hlen hfunc hinfo hparse
    have hok := getRegisterInfo_ok fb hlen hfunc
    rw [hok] at hinfo
    have hpair := Except.ok.inj hinfo
    have hname : name = (registerPair fb).1 ++ "(" ++
        registerK2 (registerKey fb) ++ ")" := (congrArg Prod.fst hpair).symm
    have hnameT : name ≠ "Temperatures(0302)" := by
      rw [hname]; exact registerName_ne_temperatures fb
    unfold processFrame
    rw [if_pos (⟨hlen, hfunc⟩ : _ ∧ _)]
    rw [hparse, hok, ← hname]
    by_cases hdev : name = "DeviceInfo(0104)"
    · simp [publishValues, hdev]
    · simp [publishValues, hdev, hnameT, setGauge, List.forM]
  · intro e
    cases e <;> simp [runLoopCatches]

/-- Witness for `monitor_error_boundary`: the concrete `DamperState` frame
`frameDS` (empty payload after the register id) is caught and recorded,
and `struct.error` is not among the caught run-loop errors. -/
theorem monitor_error_boundary_witness :
    processFrame frameDS = Except.ok (some (
      printableAddress (if pFunc frameDS = Function.ACK06 then pSource frameDS
        else pDest frameDS) ++ "_" ++ "DamperState(0319)",
      [("ERROR", PyVal.str "parsing: IndexError")], pData frameDS)) ∧
    ¬(PyError.structError = PyError.osError ∨
      PyError.structError = PyError.carrierError) :=
  ⟨monitor_error_boundary.1 frameDS "DamperState(0319)"
      [(0, Field.UINT8, some "DamperPosition")] (by decide) (by decide)
      (by decide) (by decide),
   fun h => by
    have := (monitor_error_boundary.2 PyError.structError).mpr h
    exact absurd this (by decide)⟩

/-! ## FrameToSend (`finitude/frames.py` / `finitude/transactions.py`)

`FrameToSend.convert_word_to_bytes(word)` begins with `len(addr)`; its
parameter is `word` and `addr` is bound in no scope visible to the
function, so CPython raises `NameError` on the first expression of every
call.  We model Python name resolution for that read explicitly. -/

/-- The local names of `convert_word_to_bytes` (its parameter list; the
body binds nothing before reading `addr`). -/
def convertWordLocalNames : List String := ["word"]

/-- The module-level names of `finitude/frames.py` (imports and top-level
definitions).  `addr` is not among them, and `addr` is not a Python
builtin either. -/
def framesModuleNames : List String := ["serial", "select", "socket",
  "struct", "sys", "time", "IntEnum", "FanMode", "HvacMode", "Field",
  "REGISTER_INFO", "REPEATED_8_ZONES", "CarrierError", "SerialStream",
  "SocketStream", "StreamFactory", "Bus", "AssembledFrame", "ParsedFrame",
  "Function", "bytestohex", "CRC16", "FrameToSend", "main"]

/-- Resolve a name read inside `convert_word_to_bytes`: local scope, then
module scope; an unbound name raises `NameError`. -/
def resolveName (n : String) : Except PyError Unit :=
  if n ∈ convertWordLocalNames ∨ n ∈ framesModuleNames then Except.ok ()
  else Except.error PyError.nameError

/-- `FrameToSend.convert_word_to_bytes(word)`: the first evaluated
expression reads the unbound name `addr`, so the call raises `NameError`
for every argument; the rest of the body (the 4-hex-digit validation and
the 3-byte encoding) is unreachable. -/
def convert_word_to_bytes (word : String) : Except PyError (List Nat) :=
  match resolveName "addr" with
  | Except.error e => Except.error e
  | Except.ok () => Except.ok []

/-- The members of `class Function(IntEnum)` in definition order — the
order `for f in Function` iterates. -/
def functionMembers : List (Nat × String) := [(0x02, "ACK02"),
  (0x06, "ACK06"), (0x0b, "READ"), (0x0c, "WRITE"), (0x15, "NACK"),
  (0x1e, "ALARM"), (0x10, "CHGTBN"), (0x22, "RDOBJ"), (0x62, "RDVAR"),
  (0x63, "FORCE"), (0x64, "AUTO"), (0x75, "LIST")]

/-- A hex digit's value, if any. -/
def hexDigitVal (c : Char) : Option Nat :=
  if '0' ≤ c ∧ c ≤ '9' then some (c.toNat - 48)
  else if 'a' ≤ c ∧ c ≤ 'f' then some (c.toNat - 87)
  else if 'A' ≤ c ∧ c ≤ 'F' then some (c.toNat - 55)
  else none

/-- Hex digits to a value; `none` when empty or any char is not hex. -/
def parseHexDigits : List Char → Option Nat
  | [] => none
  | [c] => hexDigitVal c
  | c :: rest =>
    match hexDigitVal c, parseHexDigits rest with
    | some hi, some lo => some (hi * 16 ^ rest.length + lo)
    | _, _ => none

/-- `int(s, 16)` on a short string: optional surrounding spaces, optional
sign, then at least one hex digit; otherwise `ValueError`. -/
def pyIntHex (cs : List Char) : Except PyError Int :=
  let cs := ((cs.dropWhile (· = ' ')).reverse.dropWhile (· = ' ')).reverse
  match cs with
  | '+' :: ds =>
    match parseHexDigits ds with
    | some v => Except.ok (v : Int)
    | none => Except.error PyError.valueError
  | '-' :: ds =>
    match parseHexDigits ds with
    | some v => Except.ok (-(v : Int))
    | none => Except.error PyError.valueError
  | ds =>
    match parseHexDigits ds with
    | some v => Except.ok (v : Int)
    | none => Except.error PyError.valueError

/-- `zip(*([iter(data)]*2))`: consecutive pairs, a trailing odd character
is dropped. -/
def pairUp : List Char → List (Char × Char)
  | c1 :: c2 :: rest => (c1, c2) :: pairUp rest
  | _ => []

/-- `bytes([int(hi + lo, 16) for (hi, lo) in zip(*([iter(data)]*2))])`:
each pair parses as hex (else `ValueError` from `int`), and `bytes()`
itself raises `ValueError` outside 0..255 (e.g. for a negative
`int('-f', 16)`). -/
def pyHexPairsToBytes (data : String) : Except PyError (List Nat) :=
  go (pairUp data.data)
where
  go : List (Char × Char) → Except PyError (List Nat)
    | [] => Except.ok []
    | (c1, c2) :: rest =>
      match pyIntHex [c1, c2] with
      | Except.error e => Except.error e
      | Except.ok v =>
        if v < 0 ∨ 256 ≤ v then Except.error PyError.valueError
        else
          match go rest with
          | Except.error e => Except.error e
          | Except.ok bs => Except.ok (v.toNat :: bs)

/-- `FrameToSend.__init__(bus, source, dest, funcstr, register, mask,
data)` up to the constructed wire frame (`self.frame.framebytes`), in
source evaluation order: resolve `funcstr` against the `Function` members
(bare `Exception` when unknown), then `regb`, `maskb`, `datab`, then
convert `dest` and `source`, then `AssembledFrame` (whose `assert
len(data) <= 255` is the last way to fail). -/
def frameToSendInit (dest source funcstr register mask data : String) :
    Except PyError (List Nat) :=
  match functionMembers.find? (fun f => f.2 == funcstr) with
  | none => Except.error PyError.exception
  | some f =>
    match (if register ≠ "" then
        match convert_word_to_bytes register with
        | Except.ok b => Except.ok (0 :: b)
        | Except.error e => Except.error e
      else Except.ok []) with
    | Except.error e => Except.error e
    | Except.ok regb =>
      match (if mask ≠ "" then
          match convert_word_to_bytes mask with
          | Except.ok b => Except.ok (0 :: b)
          | Except.error e => Except.error e
        else Except.ok []) with
      | Except.error e => Except.error e
      | Except.ok maskb =>
        match pyHexPairsToBytes data with
        | Except.error e => Except.error e
        | Except.ok datab =>
          match convert_word_to_bytes dest with
          | Except.error e => Except.error e
          | Except.ok destb =>
            match convert_word_to_bytes source with
            | Except.error e => Except.error e
            | Except.ok sourceb =>
              if (regb ++ maskb ++ datab).length ≤ 255 then
                Except.ok (framebytesOf destb sourceb f.1
                  (regb ++ maskb ++ datab) 0 0)
              else Except.error PyError.assertionError

/-- C10 counterexample: construction does not *always* raise `NameError` —
with an unknown function name the `for f in Function` loop's `else` raises
a bare `Exception` before any call to `convert_word_to_bytes`. -/
theorem frameToSend_nameError_counterexample :
    frameToSendInit "2001" "3001" "BOGUS" "" "" "" =
      Except.error PyError.exception ∧
    PyError.exception ≠ PyError.nameError := by
  constructor <;> decide

/-- C10 amended: `convert_word_to_bytes` raises `NameError` for every
argument (it reads the unbound name `addr`); consequently no `FrameToSend`
is ever constructed: every construction fails, and any construction that
reaches a `convert_word_to_bytes` call — a recognized function name
together with a nonempty register, or with empty register and mask and
well-formed hex data — fails with `NameError` before any frame is
assembled or sent.  (Constructions can fail earlier with a different
error: unknown function name, or invalid hex data.) -/
theorem frameToSend_nameError :
    (∀ w, convert_word_to_bytes w = Except.error PyError.nameError) ∧
    (∀ dest source funcstr register mask data,
      ¬∃ v, frameToSendInit dest source funcstr register mask data =
        Except.ok v) ∧
    (∀ dest source funcstr register mask data f,
      functionMembers.find? (fun g => g.2 == funcstr) = some f →
      register ≠ "" →
      frameToSendInit dest source funcstr register mask data =
        Except.error PyError.nameError) ∧
    (∀ dest source funcstr register mask data f datab,
      functionMembers.find? (fun g => g.2 == funcstr) = some f →
      register = "" → mask = "" →
      pyHexPairsToBytes data = Except.ok datab →
      frameToSendInit dest source funcstr register mask data =
        Except.error PyError.nameError) := by
  have hcw : ∀ w, convert_word_to_bytes w = Except.error PyError.nameError :=
    fun w => rfl
  refine ⟨hcw, ?_, ?_, ?_⟩
  · intro dest source funcstr register mask data
    rintro ⟨v, hv⟩
    unfold frameToSendInit at hv
    cases hfind : functionMembers.find? (fun f => f.2 == funcstr) with
    | none => rw [hfind] at hv; exact Except.noConfusion hv
    | some f =>
      rw [hfind] at hv
      by_cases hreg : register ≠ ""
      · rw [if_pos hreg, hcw register] at hv
        exact Except.noConfusion hv
      · rw [if_neg hreg] at hv
        by_cases hmask : mask ≠ ""
        · rw [if_pos hmask, hcw mask] at hv
          exact Except.noConfusion hv
        · rw [if_neg hmask] at hv
          cases hdat : pyHexPairsToBytes data with
          | error e => rw [hdat] at hv; exact Except.noConfusion hv
          | ok datab =>
            rw [hdat, hcw dest] at hv
            exact Except.noConfusion hv
  · intro dest source funcstr register mask data f hfind hreg
    unfold frameToSendInit
    rw [hfind, if_pos hreg, hcw register]
  · intro dest source funcstr register mask data f datab hfind hreg hmask hdat
    unfold frameToSendInit
    rw [hfind, if_neg (by simp [hreg]), if_neg (by simp [hmask]), hdat,
      hcw dest]

/-- Witness for `frameToSend_nameError`: a concrete `READ` construction
with a register fails with `NameError`, as does `convert_word_to_bytes`
itself on a concrete word. -/
theorem frameToSend_nameError_witness :
    convert_word_to_bytes "2001" = Except.error PyError.nameError ∧
    frameToSendInit "2001" "3001" "READ" "003b02" "" "" =
      Except.error PyError.nameError :=
  ⟨frameToSend_nameError.1 "2001",
   frameToSend_nameError.2.2.1 "2001" "3001" "READ" "003b02" "" ""
     (0x0b, "READ") (by decide) (by decide)⟩

end Finitude









